import Mathlib

/-!
# MedScan — document ingestion and multi-provider analysis dispatch pipeline

A shallow embedding, in Lean 4, of the core of the MedScan repository:
the chunked base64 file encoder (`fileToBase64` in `openai-service.ts` /
`gemini-service.ts`, plus the single-pass variant in `api-service.ts`),
the prompt builder (`generateMedicalPrompt`, server and client copies),
the provider adapters (`analyzeWithOpenAI`, `analyzeWithGemini` in
`src/server/services/modelService.ts`), the Express routes
(`modelRouter` / `validateRequest`), and the client-side dispatch
(`analyzeWithModel` in `lib/model-service.ts`, `analyzeWithBackend` in
`api-service.ts`, the `handleFileUpload` cap in `MedScanApp.tsx`).

Conventions used throughout:
* JavaScript strings are Lean `String`s; byte contents are `List Nat`
  with an explicit `< 256` bound where it matters.
* Network calls (OpenAI / Gemini SDK calls, `fetch`) are oracles passed
  in as function arguments; a result that is provably independent of the
  oracle corresponds to "no network call is made".
* Thrown JS `Error`s become `Except` error values; the exact thrown
  message strings are reproduced by a render function.
* JavaScript truthiness of optional strings (`x ? a : b`, `x || y`) is
  modelled explicitly: `undefined` and `""` are falsy.
-/

/-! ## JavaScript string / truthiness helpers -/

/-- Truthiness of an optional JS string: `undefined` and `""` are falsy. -/
def jsTruthy : Option String → Bool
  | none => false
  | some s => !(s == "")

/-- JS `x || d` for an optional string `x`: `undefined`/`null`/`""` fall back to `d`. -/
def jsOrElse (x : Option String) (d : String) : String :=
  match x with
  | none => d
  | some s => if s == "" then d else s

/-- JS `x || d` for a plain string `x`: `""` falls back to `d`. -/
def jsOrElseStr (x : String) (d : String) : String :=
  if x == "" then d else x

/-- A single-quote character, used inside prompt text ("doctor`s"). -/
def SQ : String := String.singleton (Char.ofNat 39)

/-! ## Decimal digit rendering

Models the digit sequence produced by JavaScript number rendering
(`Number.prototype.toFixed`): only the digit alphabet matters for the
theorems below, so rounding is taken as exact integer arithmetic. -/

/-- The decimal digits of `n`, most significant first. -/
def natToDigits (n : Nat) : List Char :=
  if h : n < 10 then [Char.ofNat (48 + n)]
  else natToDigits (n / 10) ++ [Char.ofNat (48 + n % 10)]
termination_by n
decreasing_by omega

theorem digitChar_mem (m : Nat) (h : m < 10) :
    Char.ofNat (48 + m) ∈ "0123456789".data := by
  interval_cases m <;> decide

theorem natToDigits_mem (n : Nat) : ∀ c ∈ natToDigits n, c ∈ "0123456789".data := by
  induction n using natToDigits.induct with
  | case1 n h =>
    intro c hc
    rw [natToDigits, dif_pos h] at hc
    simp only [List.mem_singleton] at hc
    exact hc ▸ digitChar_mem n h
  | case2 n h ih =>
    intro c hc
    rw [natToDigits, dif_neg h] at hc
    rcases List.mem_append.mp hc with h1 | h2
    · exact ih c h1
    · simp only [List.mem_singleton] at h2
      exact h2 ▸ digitChar_mem (n % 10) (Nat.mod_lt n (by omega))

/-! ## Base64 (RFC 4648)

Models the browser platform primitive behind `FileReader.readAsDataURL`:
the data-URL payload is the standard base64 encoding of the read bytes.
The repository code never implements base64 itself; it delegates to the
platform, whose behaviour is embedded here so that the round-trip law
of the Chunked Encoder can be stated. -/

/-- The base64 alphabet, index 0..63. -/
def b64Alphabet : List Char :=
  "ABCDEFGHIJKLMNOPQRSTUVWXYZabcdefghijklmnopqrstuvwxyz0123456789+/".data

/-- The character for sextet `n` (total: defaults for out-of-range `n`). -/
def b64Char (n : Nat) : Char := b64Alphabet.getD n 'A'

/-- The sextet encoded by character `c`, if `c` is in the alphabet. -/
def b64Index (c : Char) : Option Nat := b64Alphabet.indexOf? c

/-- Standard base64 encoding of a byte sequence, with `=` padding. -/
def base64Encode : List Nat → List Char
  | [] => []
  | [a] => [b64Char (a / 4), b64Char (a % 4 * 16), '=', '=']
  | [a, b] => [b64Char (a / 4), b64Char (a % 4 * 16 + b / 16), b64Char (b % 16 * 4), '=']
  | a :: b :: c :: rest =>
      b64Char (a / 4) :: b64Char (a % 4 * 16 + b / 16) ::
        b64Char (b % 16 * 4 + c / 64) :: b64Char (c % 64) :: base64Encode rest

/-- Standard base64 decoding; `none` on any malformed input. -/
def base64Decode : List Char → Option (List Nat)
  | [] => some []
  | c1 :: c2 :: c3 :: c4 :: rest =>
    match b64Index c1, b64Index c2 with
    | some a, some b =>
      if c3 = '=' then
        if c4 = '=' ∧ rest = [] then some [a * 4 + b / 16] else none
      else
        match b64Index c3 with
        | some c =>
          if c4 = '=' then
            if rest = [] then some [a * 4 + b / 16, b % 16 * 16 + c / 4] else none
          else
            match b64Index c4 with
            | some d =>
              (base64Decode rest).map
                (fun tl => (a * 4 + b / 16) :: (b % 16 * 16 + c / 4) :: (c % 4 * 64 + d) :: tl)
            | none => none
        | none => none
    | _, _ => none
  | _ => none

theorem b64Index_b64Char : ∀ n, n < 64 → b64Index (b64Char n) = some n := by decide

theorem b64Char_ne_eq : ∀ n, b64Char n ≠ '=' := by
  intro n
  by_cases h : n < 64
  · revert n
    exact fun n h => by revert h; revert n; decide
  · unfold b64Char
    rw [List.getD_eq_default _ _ (by simp [b64Alphabet]; omega)]
    decide

theorem b64Char_ne_comma : ∀ n, b64Char n ≠ ',' := by
  intro n
  by_cases h : n < 64
  · revert n
    exact fun n h => by revert h; revert n; decide
  · unfold b64Char
    rw [List.getD_eq_default _ _ (by simp [b64Alphabet]; omega)]
    decide

/-- No character of a base64 encoding is a comma (so splitting a data URL
at commas leaves the payload intact). -/
theorem base64Encode_ne_comma (l : List Nat) : ∀ c ∈ base64Encode l, c ≠ ',' := by
  induction l using base64Encode.induct with
  | case1 => intro c hc; simp [base64Encode] at hc
  | case2 a =>
    intro c hc
    simp only [base64Encode, List.mem_cons, List.not_mem_nil, or_false] at hc
    rcases hc with h | h | h | h <;> subst h <;> first | exact b64Char_ne_comma _ | decide
  | case3 a b =>
    intro c hc
    simp only [base64Encode, List.mem_cons, List.not_mem_nil, or_false] at hc
    rcases hc with h | h | h | h <;> subst h <;> first | exact b64Char_ne_comma _ | decide
  | case4 a b c rest ih =>
    intro x hx
    simp only [base64Encode, List.mem_cons] at hx
    rcases hx with h | h | h | h | h
    · exact h ▸ b64Char_ne_comma _
    · exact h ▸ b64Char_ne_comma _
    · exact h ▸ b64Char_ne_comma _
    · exact h ▸ b64Char_ne_comma _
    · exact ih x h

/-- Round-trip law of the platform codec: decoding an encoding recovers
the original bytes. -/
theorem base64_roundtrip (l : List Nat) (hl : ∀ b ∈ l, b < 256) :
    base64Decode (base64Encode l) = some l := by
  induction l using base64Encode.induct with
  | case1 => simp [base64Encode, base64Decode]
  | case2 a =>
    have ha : a < 256 := hl a (by simp)
    have h1 : b64Index (b64Char (a / 4)) = some (a / 4) := b64Index_b64Char _ (by omega)
    have h2 : b64Index (b64Char (a % 4 * 16)) = some (a % 4 * 16) :=
      b64Index_b64Char _ (by omega)
    simp only [base64Encode, base64Decode, h1, h2, if_pos rfl, and_self, reduceIte]
    exact congrArg some (by simp; omega)
  | case3 a b =>
    have ha : a < 256 := hl a (by simp)
    have hb : b < 256 := hl b (by simp)
    have h1 : b64Index (b64Char (a / 4)) = some (a / 4) := b64Index_b64Char _ (by omega)
    have h2 : b64Index (b64Char (a % 4 * 16 + b / 16)) = some (a % 4 * 16 + b / 16) :=
      b64Index_b64Char _ (by omega)
    have h3 : b64Index (b64Char (b % 16 * 4)) = some (b % 16 * 4) :=
      b64Index_b64Char _ (by omega)
    simp only [base64Encode, base64Decode, h1, h2, h3, b64Char_ne_eq, if_false, if_pos rfl,
      reduceIte]
    exact congrArg some (by simp; omega)
  | case4 a b c rest ih =>
    have ha : a < 256 := hl a (by simp)
    have hb : b < 256 := hl b (by simp)
    have hc : c < 256 := hl c (by simp)
    have hrest : ∀ x ∈ rest, x < 256 := fun x hx => hl x (by simp [hx])
    have h1 : b64Index (b64Char (a / 4)) = some (a / 4) := b64Index_b64Char _ (by omega)
    have h2 : b64Index (b64Char (a % 4 * 16 + b / 16)) = some (a % 4 * 16 + b / 16) :=
      b64Index_b64Char _ (by omega)
    have h3 : b64Index (b64Char (b % 16 * 4 + c / 64)) = some (b % 16 * 4 + c / 64) :=
      b64Index_b64Char _ (by omega)
    have h4 : b64Index (b64Char (c % 64)) = some (c % 64) := b64Index_b64Char _ (by omega)
    simp only [base64Encode, base64Decode, h1, h2, h3, h4, b64Char_ne_eq, if_false,
      ih hrest, Option.map_some, reduceIte]
    exact congrArg some (by simp; omega)

/-! ## Browser files and `FileReader.readAsDataURL` -/

/-- A browser `File`: name, MIME type, and binary content (bytes). -/
structure JSFile where
  name : String
  type : String
  content : List Nat
deriving DecidableEq

/-- `File.size`: the byte length of the content. -/
def JSFile.size (f : JSFile) : Nat := f.content.length

/-- Platform `FileReader.readAsDataURL` applied to a blob of MIME type
`mime` holding `bytes`: a data URL whose payload is the base64 encoding
of the bytes. -/
def readAsDataURL (mime : String) (bytes : List Nat) : List Char :=
  ("data:" ++ mime ++ ";base64,").data ++ base64Encode bytes

/-- JS `str.split(",")[1]`: the segment between the first and second
comma of the string. -/
def jsSplitSecond (l : List Char) : List Char :=
  (((l.dropWhile (fun c => !(c == ','))).drop 1).takeWhile (fun c => !(c == ',')))

theorem dropWhile_append_of_forall {p : Char → Bool} (a b : List Char)
    (h : ∀ c ∈ a, p c = true) : (a ++ b).dropWhile p = b.dropWhile p := by
  induction a with
  | nil => simp
  | cons x xs ih =>
    have hx : p x = true := h x (by simp)
    simp only [List.cons_append, List.dropWhile_cons, hx, if_true]
    exact ih fun c hc => h c (by simp [hc])

theorem takeWhile_eq_self_of_forall {p : Char → Bool} (a : List Char)
    (h : ∀ c ∈ a, p c = true) : a.takeWhile p = a := by
  induction a with
  | nil => simp
  | cons x xs ih =>
    have hx : p x = true := h x (by simp)
    simp only [List.takeWhile_cons, hx, if_true]
    exact congrArg (x :: ·) (ih fun c hc => h c (by simp [hc]))

/-- Splitting a data URL at its commas recovers exactly the base64
payload, provided the MIME type itself contains no comma. -/
theorem jsSplitSecond_readAsDataURL (mime : String) (bytes : List Nat)
    (hm : ',' ∉ mime.data) :
    jsSplitSecond (readAsDataURL mime bytes) = base64Encode bytes := by
  have hall : ∀ c ∈ ("data:" ++ mime ++ ";base64").data, (!(c == ',')) = true := by
    intro c hc
    simp only [String.data_append] at hc
    simp only [Bool.not_eq_true', beq_eq_false_iff_ne, ne_eq]
    rintro rfl
    rcases List.mem_append.mp hc with h1 | h2
    · rcases List.mem_append.mp h1 with h3 | h4
      · exact absurd h3 (by decide)
      · exact hm h4
    · exact absurd h2 (by decide)
  unfold jsSplitSecond readAsDataURL
  have hpre : ("data:" ++ mime ++ ";base64,").data
      = ("data:" ++ mime ++ ";base64").data ++ [','] := by
    simp only [String.data_append]
    simp only [List.append_assoc]
    rfl
  rw [hpre, List.append_assoc, dropWhile_append_of_forall _ _ hall]
  have hstep : List.dropWhile (fun c => !(c == ',')) ([','] ++ base64Encode bytes)
      = ',' :: base64Encode bytes := by
    simp [List.dropWhile_cons]
  rw [hstep]
  simp only [List.drop_succ_cons, List.drop_zero]
  exact takeWhile_eq_self_of_forall _ fun c hc => by
    simp only [Bool.not_eq_true', beq_eq_false_iff_ne, ne_eq]
    exact base64Encode_ne_comma bytes c hc

/-! ## The Chunked Encoder (`fileToBase64` in `openai-service.ts` / `gemini-service.ts`)

Files strictly larger than the 5 MB warning threshold are read with
`file.slice` in 1 MB chunks accumulated into a list of blobs; the blobs
are then combined into one blob and encoded once via `readAsDataURL`.
Smaller files are read in a single `readAsDataURL` pass. The 60 s
wall-clock timeout and the coarse progress logging are side effects with
no influence on the produced payload and are not modelled. -/

/-- `const chunkSize = 1024 * 1024` (1 MB). -/
def CHUNK_SIZE : Nat := 1024 * 1024

/-- `const FILE_SIZE_WARNING_THRESHOLD = 5 * 1024 * 1024` (5 MB). -/
def FILE_SIZE_WARNING_THRESHOLD : Nat := 5 * 1024 * 1024

/-- The recursive `readChunk(start)` loop: the sequence of byte chunks
pushed onto the accumulator, each produced by `file.slice(start, end)`
with `end = min(start + chunkSize, file.size)`. -/
def readChunk (content : List Nat) (start : Nat) : List (List Nat) :=
  let endPos := min (start + CHUNK_SIZE) content.length
  let chunk := (content.drop start).take (endPos - start)
  if endPos < content.length then chunk :: readChunk content endPos
  else [chunk]
termination_by content.length - start
decreasing_by
  simp only [CHUNK_SIZE] at *
  omega


/-- Combining the accumulated chunks (`new Blob(chunks)`) restores the
bytes of the file from position `start` on. -/
theorem readChunk_flatten (content : List Nat) (start : Nat) :
    (readChunk content start).flatten = content.drop start := by
  induction start using readChunk.induct content with
  | case1 x endPos hlt ih =>
    have hdef : endPos = (x + CHUNK_SIZE) ⊓ content.length := rfl
    rw [hdef] at hlt ih
    rw [readChunk, if_pos hlt]
    simp only [List.flatten_cons, ih]
    have hend : (x + CHUNK_SIZE) ⊓ content.length = x + CHUNK_SIZE := by
      simp only [CHUNK_SIZE] at *
      omega
    rw [hend]
    have hdrop : content.drop (x + CHUNK_SIZE) = (content.drop x).drop (x + CHUNK_SIZE - x) := by
      rw [List.drop_drop]
      congr 1
      omega
    rw [hdrop, List.take_append_drop]
  | case2 x endPos hlt =>
    have hdef : endPos = (x + CHUNK_SIZE) ⊓ content.length := rfl
    rw [hdef] at hlt
    rw [readChunk, if_neg hlt]
    simp only [List.flatten_cons, List.flatten_nil, List.append_nil]
    have hend : (x + CHUNK_SIZE) ⊓ content.length = content.length := by
      omega
    rw [hend]
    exact List.take_of_length_le (le_of_eq (List.length_drop x content))

theorem readChunk_ne_nil (content : List Nat) (start : Nat) :
    readChunk content start ≠ [] := by
  rw [readChunk]
  split <;> simp

/-- Every accumulated chunk holds at most 1 MB, and every chunk but the
last holds exactly 1 MB (the fixed chunk size of the reader loop). -/
theorem readChunk_sizes (content : List Nat) (start : Nat) :
    (∀ c ∈ readChunk content start, c.length ≤ CHUNK_SIZE) ∧
    (∀ c ∈ (readChunk content start).dropLast, c.length = CHUNK_SIZE) := by
  induction start using readChunk.induct content with
  | case1 x endPos hlt ih =>
    have hdef : endPos = (x + CHUNK_SIZE) ⊓ content.length := rfl
    rw [hdef] at hlt ih
    rw [readChunk, if_pos hlt]
    have hend : (x + CHUNK_SIZE) ⊓ content.length = x + CHUNK_SIZE := by
      simp only [CHUNK_SIZE] at *
      omega
    have hlen : (List.take ((x + CHUNK_SIZE) ⊓ content.length - x) (content.drop x)).length
        = CHUNK_SIZE := by
      rw [List.length_take, List.length_drop, hend]
      simp only [CHUNK_SIZE] at *
      omega
    constructor
    · intro c hc
      rcases List.mem_cons.mp hc with h | h
      · exact h ▸ le_of_eq hlen
      · exact ih.1 c h
    · intro c hc
      rw [List.dropLast_cons_of_ne_nil (readChunk_ne_nil content _)] at hc
      rcases List.mem_cons.mp hc with h | h
      · exact h ▸ hlen
      · exact ih.2 c h
  | case2 x endPos hlt =>
    have hdef : endPos = (x + CHUNK_SIZE) ⊓ content.length := rfl
    rw [hdef] at hlt
    rw [readChunk, if_neg hlt]
    constructor
    · intro c hc
      rcases List.mem_cons.mp hc with h | h
      · subst h
        rw [List.length_take, List.length_drop]
        omega
      · simp at h
    · intro c hc
      simp at hc

/-- `fileToBase64` of `openai-service.ts` / `gemini-service.ts` (the two
copies are identical): a file strictly larger than the warning threshold
is read chunk by chunk, the chunks are combined into one blob of the
file's MIME type and encoded with a single `readAsDataURL`; a smaller
file is encoded with a single `readAsDataURL` pass directly. Either way
the resolved value is `result.split(",")[1]`, the data-URL payload. -/
def fileToBase64 (file : JSFile) : String :=
  if file.size > FILE_SIZE_WARNING_THRESHOLD then
    String.mk (jsSplitSecond (readAsDataURL file.type (readChunk file.content 0).flatten))
  else
    String.mk (jsSplitSecond (readAsDataURL file.type file.content))

/-- The read passes `fileToBase64` performs on the file: one whole-file
pass below or at the threshold, the chunk sequence above it. -/
def readPasses (file : JSFile) : List (List Nat) :=
  if file.size > FILE_SIZE_WARNING_THRESHOLD then readChunk file.content 0
  else [file.content]

namespace ApiService

/-- `fileToBase64` of `api-service.ts`: always a single `readAsDataURL`
pass, resolving with `result.split(",")[1]`. -/
def fileToBase64 (file : JSFile) : String :=
  String.mk (jsSplitSecond (readAsDataURL file.type file.content))

end ApiService

/-! ## Shared data model (`server/types` / `lib/types`) -/

/-- Server-side file payload: `{ name, type, size, data }` where `data`
is the (claimed) base64 content and `size` the (claimed) byte count. -/
structure MedicalFile where
  name : String
  type : String
  size : Nat
  data : String
deriving DecidableEq

/-- Server-side `MedicalAnalysisData`. -/
structure MedicalAnalysisData where
  patientName : String
  patientAge : String
  additionalNotes : Option String
  files : List MedicalFile
deriving DecidableEq

/-- Client-side `MedicalAnalysisData` (`lib/types.ts`): the files are
browser `File` objects. -/
structure ClientAnalysisData where
  patientName : String
  patientAge : String
  additionalNotes : Option String
  files : List JSFile
deriving DecidableEq

/-! ## The prompt template shared by both `generateMedicalPrompt` copies -/

/-- Template text before the interpolated patient name. -/
def PROMPT_HEAD : String :=
  "You are a medical expert, but not a doctor. Your task is to analyze the attached medical documents and assist the doctor in diagnosing the patient.\n  The doctor" ++ SQ ++ "s vote is the final answer. But you can help the doctor by providing your analysis and recommendations.\n  \n  Generate a detailed medical analysis report based on these documents.\n          \nPatient Information:\n- Name: "

/-- Template text between the patient name and the patient age. -/
def PROMPT_MID : String := "\n- Age: "

/-- Template text from the word `Analyze` on: everything after the empty
template line that follows the notes interpolation (server copy). -/
def PROMPT_TAIL : String :=
  "Analyze the attached medical documents and provide a comprehensive report including:\n1. Patient Information\n2. Findings and Observations\n3. Diagnosis (if possible)\n4. Recommendations\n5. Follow-up requirements\n\nFormat the report in Markdown with proper headings, lists, and emphasis where appropriate."

/-- The client copy appends one extra NOTE paragraph. -/
def PROMPT_TAIL_CLIENT : String :=
  PROMPT_TAIL ++ "\n\nNOTE: WE WANT ONLY THE REPORT, NOT ANYTHING ELSE."

/-- The notes interpolation
`${data.additionalNotes ? `- Additional Notes: ...` : ''}` followed by
the newline that closes its template line. -/
def promptNotesSegment (notes : Option String) : String :=
  (if jsTruthy notes then "- Additional Notes: " ++ notes.getD "" else "") ++ "\n"

/-! ## `src/server/services/modelService.ts` -/

/-- `const MAX_TOTAL_FILE_SIZE = 20 * 1024 * 1024` (20 MB). -/
def MAX_TOTAL_FILE_SIZE : Nat := 20 * 1024 * 1024

def OPENAI_MODEL : String := "gpt-4o"

def GEMINI_MODEL : String := "gemini-2.0-flash"

/-- The normalized OpenAI chat-completion request the adapter builds. -/
structure OpenAIRequest where
  model : String
  promptText : String
  imageUrls : List String
  temperatureTenths : Nat
deriving DecidableEq

/-- One element of `response.choices`; `content` is
`choices[i]?.message?.content` collapsed to a single optional string. -/
structure OAIChoice where
  content : Option String
deriving DecidableEq

/-- An OpenAI chat-completion response, reduced to its choices. -/
structure OpenAIResponse where
  choices : List OAIChoice
deriving DecidableEq

/-- The normalized Gemini request the adapter builds: inline data parts
`(data, mimeType)`, the four block-medium-and-above safety settings and
the generation config. -/
structure GeminiRequest where
  model : String
  promptText : String
  inlineData : List (String × String)
  safetyBlockMediumAndAbove : List String
  temperatureTenths : Nat
  topK : Nat
  topPHundredths : Nat
deriving DecidableEq

/-- A Gemini response, reduced to the value of `response.text()` (which
is the empty string when no candidates were returned). -/
structure GeminiResponse where
  text : String
deriving DecidableEq

/-- The distinct `throw new Error(...)` sites of `modelService.ts`,
plus the verbatim passthrough of an error raised by the provider SDK. -/
inductive ServerError where
  | openaiKeyMissing
  | geminiKeyMissing
  | payloadTooLarge (totalBytes : Nat)
  | noResponseOpenAI
  | providerFailure (message : String)
deriving DecidableEq

/-- `(totalBytes / (1024 * 1024)).toFixed(2)`: the megabyte count with
two decimal places (digits and one dot). -/
def fixed2MB (totalBytes : Nat) : String :=
  let hundredths := totalBytes * 100 / (1024 * 1024)
  String.mk (natToDigits (hundredths / 100) ++
    '.' :: (natToDigits (hundredths / 10 % 10) ++ natToDigits (hundredths % 10)))

/-- The exact message string each `ServerError` is thrown with. -/
def renderServerError : ServerError → String
  | .openaiKeyMissing => "OpenAI API key not configured on the server."
  | .geminiKeyMissing => "Gemini API key not configured on the server."
  | .payloadTooLarge n =>
      "Total file size (" ++ fixed2MB n ++ "MB) exceeds the maximum allowed (20MB)."
  | .noResponseOpenAI => "No response received from OpenAI."
  | .providerFailure m => m

namespace ModelService

/-- Server `generateMedicalPrompt`. -/
def generateMedicalPrompt (d : MedicalAnalysisData) : String :=
  PROMPT_HEAD ++ d.patientName ++ PROMPT_MID ++ d.patientAge ++ "\n" ++
    promptNotesSegment d.additionalNotes ++ "\n" ++ PROMPT_TAIL

/-- `data.files.reduce((sum, file) => sum + file.size, 0)`. -/
def totalFileSize (d : MedicalAnalysisData) : Nat :=
  d.files.foldl (fun sum file => sum + file.size) 0

/-- The request `analyzeWithOpenAI` sends: the prompt plus one
`image_url` data-URL content part per file, temperature 0.2. -/
def mkOpenAIRequest (d : MedicalAnalysisData) : OpenAIRequest :=
  { model := OPENAI_MODEL
    promptText := generateMedicalPrompt d
    imageUrls := d.files.map (fun file => "data:" ++ file.type ++ ";base64," ++ file.data)
    temperatureTenths := 2 }

/-- `analyzeWithOpenAI`: key presence check, total-size check, then the
network call (`net`, receiving the configured key and the built
request), then zero-choices check and `content || fallback`. -/
def analyzeWithOpenAI (OPENAI_API_KEY : Option String)
    (net : String → OpenAIRequest → Except String OpenAIResponse)
    (d : MedicalAnalysisData) : Except ServerError String :=
  match OPENAI_API_KEY with
  | none => .error .openaiKeyMissing
  | some key =>
    let totalSize := totalFileSize d
    if totalSize > MAX_TOTAL_FILE_SIZE then .error (.payloadTooLarge totalSize)
    else
      match net key (mkOpenAIRequest d) with
      | .error m => .error (.providerFailure m)
      | .ok response =>
        match response.choices with
        | [] => .error .noResponseOpenAI
        | choice :: _ => .ok (jsOrElse choice.content "No analysis could be generated.")

/-- The request `analyzeWithGemini` sends: inline data parts, the four
safety settings, temperature 0.2, topK 40, topP 0.95. -/
def mkGeminiRequest (d : MedicalAnalysisData) : GeminiRequest :=
  { model := GEMINI_MODEL
    promptText := generateMedicalPrompt d
    inlineData := d.files.map (fun file => (file.data, file.type))
    safetyBlockMediumAndAbove :=
      ["HARM_CATEGORY_HARASSMENT", "HARM_CATEGORY_HATE_SPEECH",
       "HARM_CATEGORY_SEXUALLY_EXPLICIT", "HARM_CATEGORY_DANGEROUS_CONTENT"]
    temperatureTenths := 2
    topK := 40
    topPHundredths := 95 }

/-- `analyzeWithGemini`: key presence check, total-size check, network
call, then `response.text() || fallback` — note: no zero-candidate
error path; an empty `text()` becomes a successful fallback report. -/
def analyzeWithGemini (GEMINI_API_KEY : Option String)
    (net : String → GeminiRequest → Except String GeminiResponse)
    (d : MedicalAnalysisData) : Except ServerError String :=
  match GEMINI_API_KEY with
  | none => .error .geminiKeyMissing
  | some key =>
    let totalSize := totalFileSize d
    if totalSize > MAX_TOTAL_FILE_SIZE then .error (.payloadTooLarge totalSize)
    else
      match net key (mkGeminiRequest d) with
      | .error m => .error (.providerFailure m)
      | .ok response => .ok (jsOrElseStr response.text "No analysis could be generated.")

end ModelService

/-! ## `src/server/routes` — the Express `modelRouter` -/

/-- A raw JSON request body before validation: each field may be absent. -/
structure RawRequest where
  patientName : Option String
  patientAge : Option String
  additionalNotes : Option String
  files : Option (List MedicalFile)
deriving DecidableEq

namespace ModelRoutes

/-- The 400 message of the validation middleware. -/
def VALIDATION_ERROR_MSG : String :=
  "Invalid request body. Required fields: patientName, patientAge, and at least one file."

/-- The validation middleware predicate: the request passes unless
`!patientName || !patientAge || !files || !Array.isArray(files) ||
files.length === 0`. -/
def validateRequest (r : RawRequest) : Bool :=
  jsTruthy r.patientName && jsTruthy r.patientAge &&
    (match r.files with
     | none => false
     | some files => files.length != 0)

deriving instance DecidableEq for Except

/-- An HTTP response: status code plus `{ error }` or `{ result }` body. -/
structure HttpResponse where
  status : Nat
  body : Except String String
deriving DecidableEq

/-- The validated body as passed through to the service layer. -/
def toAnalysisData (r : RawRequest) : MedicalAnalysisData :=
  { patientName := r.patientName.getD ""
    patientAge := r.patientAge.getD ""
    additionalNotes := r.additionalNotes
    files := r.files.getD [] }

/-- `POST /openai/analyze`: validation middleware, then the service
call; success is `200 {result}`, any thrown error is
`500 {error: error.message}`. -/
def postOpenAIAnalyze (OPENAI_API_KEY : Option String)
    (net : String → OpenAIRequest → Except String OpenAIResponse)
    (r : RawRequest) : HttpResponse :=
  if !validateRequest r then ⟨400, .error VALIDATION_ERROR_MSG⟩
  else
    match ModelService.analyzeWithOpenAI OPENAI_API_KEY net (toAnalysisData r) with
    | .ok result => ⟨200, .ok result⟩
    | .error e => ⟨500, .error (renderServerError e)⟩

/-- `POST /gemini/analyze`, identically shaped. -/
def postGeminiAnalyze (GEMINI_API_KEY : Option String)
    (net : String → GeminiRequest → Except String GeminiResponse)
    (r : RawRequest) : HttpResponse :=
  if !validateRequest r then ⟨400, .error VALIDATION_ERROR_MSG⟩
  else
    match ModelService.analyzeWithGemini GEMINI_API_KEY net (toAnalysisData r) with
    | .ok result => ⟨200, .ok result⟩
    | .error e => ⟨500, .error (renderServerError e)⟩

end ModelRoutes

/-! ## `src/lib/api-service.ts` — the client side of the Secure Boundary -/

namespace ApiService

def API_BASE_URL : String := "http://localhost:3001/api"

/-- A `fetch` response, reduced to what `analyzeWithBackend` reads:
`ok`, `status`, and the parsed JSON `error` / `result` fields. -/
structure FetchResponse where
  ok : Bool
  status : Nat
  errorField : Option String
  resultField : String
deriving DecidableEq

/-- `prepareMedicalData`: converts each browser `File` to
`{name, type, size, data(base64)}` via this module's `fileToBase64`. -/
def prepareMedicalData (d : ClientAnalysisData) : MedicalAnalysisData :=
  { patientName := d.patientName
    patientAge := d.patientAge
    additionalNotes := d.additionalNotes
    files := d.files.map (fun file =>
      { name := file.name, type := file.type, size := file.size, data := fileToBase64 file }) }

/-- The body of `analyzeWithBackend` after the endpoint is chosen:
prepare the data, `fetch`, then `errorData.error || status message` on
`!response.ok`, else `resultData.result`. -/
def backendCall (fetch : String → MedicalAnalysisData → FetchResponse)
    (endpoint : String) (d : ClientAnalysisData) : Except String String :=
  let response := fetch endpoint (prepareMedicalData d)
  if !response.ok then
    .error (jsOrElse response.errorField
      ("API request failed with status " ++ toString response.status))
  else .ok response.resultField

/-- `analyzeWithBackend`: the endpoint ternary
`modelProvider === ModelProvider.OpenAI ? openai : gemini` followed by
the call. The provider identifier is a runtime string value. -/
def analyzeWithBackend (fetch : String → MedicalAnalysisData → FetchResponse)
    (modelProvider : String) (d : ClientAnalysisData) : Except String String :=
  backendCall fetch
    (if modelProvider == "openai" then API_BASE_URL ++ "/models/openai/analyze"
     else API_BASE_URL ++ "/models/gemini/analyze") d

end ApiService

/-! ## `src/lib/model-service.ts` — client dispatch -/

namespace ModelServiceLib

/-- `const USE_SECURE_BACKEND = true`. -/
def USE_SECURE_BACKEND : Bool := true

/-- Client `generateMedicalPrompt` (same template plus a NOTE line). -/
def generateMedicalPrompt (d : ClientAnalysisData) : String :=
  PROMPT_HEAD ++ d.patientName ++ PROMPT_MID ++ d.patientAge ++ "\n" ++
    promptNotesSegment d.additionalNotes ++ "\n" ++ PROMPT_TAIL_CLIENT

/-- `analyzeWithModel`: with the secure backend enabled every call goes
to `analyzeWithBackend`; otherwise the provider switch with its
`Unknown model provider` default. The two direct client-side adapters
are passed as oracles. -/
def analyzeWithModel (fetch : String → MedicalAnalysisData → ApiService.FetchResponse)
    (analyzeMedicalDocuments analyzeWithGeminiDirect :
      ClientAnalysisData → String → Except String String)
    (modelProvider : String) (d : ClientAnalysisData) (apiKey : String) :
    Except String String :=
  if USE_SECURE_BACKEND then ApiService.analyzeWithBackend fetch modelProvider d
  else
    match modelProvider with
    | "openai" => analyzeMedicalDocuments d apiKey
    | "gemini" => analyzeWithGeminiDirect d apiKey
    | _ => .error ("Unknown model provider: " ++ modelProvider)

end ModelServiceLib

/-! ## `src/pages/MedScanApp.tsx` — the upload cap -/

/-- `handleFileUpload`: append the accepted files and keep the first 5. -/
def handleFileUpload (files acceptedFiles : List JSFile) : List JSFile :=
  (files ++ acceptedFiles).take 5

/-! ## Claim theorems -/

/-- C10: for every analysis input, the generated prompt (both the server
and the client copy) is byte-identical whether `additionalNotes` is
absent or is the empty string: both are falsy in the template ternary,
so a present-but-empty notes field is indistinguishable from omitted
notes in the rendered prompt. -/
theorem C10_empty_notes_eq_absent (patientName patientAge : String)
    (files : List MedicalFile) (cfiles : List JSFile) :
    ModelService.generateMedicalPrompt ⟨patientName, patientAge, none, files⟩
      = ModelService.generateMedicalPrompt ⟨patientName, patientAge, some "", files⟩ ∧
    ModelServiceLib.generateMedicalPrompt ⟨patientName, patientAge, none, cfiles⟩
      = ModelServiceLib.generateMedicalPrompt ⟨patientName, patientAge, some "", cfiles⟩ := by
  exact ⟨rfl, rfl⟩

set_option maxRecDepth 40000 in
/-- C5 counterexample: at a concrete request, the prompt rendered with
absent notes keeps an empty line where the notes line would be — after
`- Age: 1` come three consecutive newlines (the age line terminator,
the emptied notes line, the separator line) before the `Analyze`
paragraph — and it has exactly as many newlines (so as many lines) as
the prompt rendered with notes present; the notes line is emptied, not
removed. -/
theorem C5_counterexample :
    ModelService.generateMedicalPrompt ⟨"A", "1", none, []⟩
      = PROMPT_HEAD ++ "A" ++ PROMPT_MID ++ "1" ++ "\n\n\n" ++ PROMPT_TAIL ∧
    ModelService.generateMedicalPrompt ⟨"A", "1", some "x", []⟩
      = PROMPT_HEAD ++ "A" ++ PROMPT_MID ++ "1" ++ "\n- Additional Notes: x\n\n"
          ++ PROMPT_TAIL ∧
    (ModelService.generateMedicalPrompt ⟨"A", "1", none, []⟩).data.count '\n'
      = (ModelService.generateMedicalPrompt ⟨"A", "1", some "x", []⟩).data.count '\n' := by
  refine ⟨?_, ?_, by decide⟩
  · apply String.ext
    simp [ModelService.generateMedicalPrompt, promptNotesSegment, jsTruthy, String.data_append]
  · apply String.ext
    simp [ModelService.generateMedicalPrompt, promptNotesSegment, jsTruthy, String.data_append]

/-- C5 amended: when `additionalNotes` is absent or empty (falsy), the
prompt contains no `- Additional Notes:` text from the template — the
interpolation renders the empty string — but the template line it
occupied is kept as a blank line: the text after the age is exactly
three consecutive newlines before the `Analyze` paragraph, instead of
the notes line plus the two newlines that close it and the separator
line. Both prompt copies behave identically. -/
theorem C5_notes_line_blank_not_removed (d : MedicalAnalysisData) (c : ClientAnalysisData)
    (hd : jsTruthy d.additionalNotes = false) (hc : jsTruthy c.additionalNotes = false) :
    ModelService.generateMedicalPrompt d
      = PROMPT_HEAD ++ d.patientName ++ PROMPT_MID ++ d.patientAge ++ "\n\n\n" ++ PROMPT_TAIL ∧
    ModelServiceLib.generateMedicalPrompt c
      = PROMPT_HEAD ++ c.patientName ++ PROMPT_MID ++ c.patientAge ++ "\n\n\n"
          ++ PROMPT_TAIL_CLIENT := by
  constructor
  · unfold ModelService.generateMedicalPrompt promptNotesSegment
    rw [hd]
    apply String.ext
    simp [String.data_append]
  · unfold ModelServiceLib.generateMedicalPrompt promptNotesSegment
    rw [hc]
    apply String.ext
    simp [String.data_append]

/-- C5 witness: the amended statement instantiated at a concrete
request with absent notes. -/
theorem C5_witness :
    ModelService.generateMedicalPrompt ⟨"J. Doe", "42", none, []⟩
      = PROMPT_HEAD ++ "J. Doe" ++ PROMPT_MID ++ "42" ++ "\n\n\n" ++ PROMPT_TAIL :=
  (C5_notes_line_blank_not_removed ⟨"J. Doe", "42", none, []⟩ ⟨"J. Doe", "42", none, []⟩
    rfl rfl).1

/-- C1 counterexample: with the OpenAI key unconfigured, a request
whose files total 21 MB (> 20 MB) fails with the missing-key error, not
with the size-guard (`PayloadTooLarge`) error — the key-presence check
precedes the total-size check in `analyzeWithOpenAI`. -/
theorem C1_counterexample :
    ModelService.analyzeWithOpenAI none (fun _ _ => Except.error "unreachable")
        ⟨"J. Doe", "42", none, [⟨"big.png", "image/png", 22020096, ""⟩]⟩
      = .error .openaiKeyMissing ∧
    ModelService.totalFileSize
        ⟨"J. Doe", "42", none, [⟨"big.png", "image/png", 22020096, ""⟩]⟩
      > MAX_TOTAL_FILE_SIZE ∧
    ServerError.openaiKeyMissing ≠ ServerError.payloadTooLarge 22020096 := by
  refine ⟨rfl, by decide, by decide⟩

/-- C1 amended: provided the provider API key is configured, every
request whose total file size exceeds 20 MB fails with the
size-violation error carrying the exact computed byte total, on both
adapters; the result is the same for any two network oracles — the
provider is never called. -/
theorem C1_size_guard_before_dispatch (key : String)
    (netO netO2 : String → OpenAIRequest → Except String OpenAIResponse)
    (netG netG2 : String → GeminiRequest → Except String GeminiResponse)
    (d : MedicalAnalysisData)
    (h : ModelService.totalFileSize d > MAX_TOTAL_FILE_SIZE) :
    ModelService.analyzeWithOpenAI (some key) netO d
      = .error (.payloadTooLarge (ModelService.totalFileSize d)) ∧
    ModelService.analyzeWithGemini (some key) netG d
      = .error (.payloadTooLarge (ModelService.totalFileSize d)) ∧
    ModelService.analyzeWithOpenAI (some key) netO d
      = ModelService.analyzeWithOpenAI (some key) netO2 d ∧
    ModelService.analyzeWithGemini (some key) netG d
      = ModelService.analyzeWithGemini (some key) netG2 d := by
  unfold ModelService.analyzeWithOpenAI ModelService.analyzeWithGemini
  simp only [if_pos h]
  exact ⟨trivial, trivial, trivial, trivial⟩

/-- C1 witness: the amended statement at a concrete 21 MB request and a
concrete oracle. -/
theorem C1_witness :
    ModelService.totalFileSize
        ⟨"J. Doe", "42", none, [⟨"big.png", "image/png", 22020096, ""⟩]⟩
      > MAX_TOTAL_FILE_SIZE ∧
    ModelService.analyzeWithOpenAI (some "sk-test")
        (fun _ _ => Except.ok ⟨[⟨some "report"⟩]⟩)
        ⟨"J. Doe", "42", none, [⟨"big.png", "image/png", 22020096, ""⟩]⟩
      = .error (.payloadTooLarge 22020096) :=
  ⟨by decide,
   (C1_size_guard_before_dispatch "sk-test"
     (fun _ _ => Except.ok ⟨[⟨some "report"⟩]⟩) (fun _ _ => Except.ok ⟨[]⟩)
     (fun _ _ => Except.ok ⟨""⟩) (fun _ _ => Except.ok ⟨""⟩)
     ⟨"J. Doe", "42", none, [⟨"big.png", "image/png", 22020096, ""⟩]⟩ (by decide)).1⟩

/-- C2 counterexample: with the secure backend enabled (the shipped
configuration), dispatching the out-of-set provider identifier
`"anthropic-claude"` does not produce an `Unknown model provider`
validation error: it performs the backend fetch (the result tracks the
fetch oracle: a succeeding fetch yields its report, a failing fetch
yields its error body), silently defaulting to the Gemini endpoint. -/
theorem C2_counterexample :
    ModelServiceLib.analyzeWithModel (fun _ _ => ⟨true, 200, none, "report"⟩)
        (fun _ _ => Except.error "direct openai unused")
        (fun _ _ => Except.error "direct gemini unused")
        "anthropic-claude" ⟨"J. Doe", "42", none, []⟩ ""
      = .ok "report" ∧
    ModelServiceLib.analyzeWithModel (fun _ _ => ⟨false, 500, some "boom", ""⟩)
        (fun _ _ => Except.error "direct openai unused")
        (fun _ _ => Except.error "direct gemini unused")
        "anthropic-claude" ⟨"J. Doe", "42", none, []⟩ ""
      = .error "boom" := by
  exact ⟨rfl, rfl⟩

/-- C2 amended: on the active dispatch path (`USE_SECURE_BACKEND =
true`), every provider identifier other than `"openai"` — including any
value outside the closed `{openai, gemini}` set — is silently routed to
the Gemini backend endpoint and the fetch is performed; no
`UnknownProvider`-style validation error is raised on this path. (The
dead direct-call switch is the only place the `Unknown model provider`
error exists.) -/
theorem C2_unknown_provider_defaults_to_gemini (modelProvider : String)
    (h : modelProvider ≠ "openai")
    (fetch : String → MedicalAnalysisData → ApiService.FetchResponse)
    (directOpenAI directGemini : ClientAnalysisData → String → Except String String)
    (d : ClientAnalysisData) (apiKey : String) :
    ModelServiceLib.analyzeWithModel fetch directOpenAI directGemini modelProvider d apiKey
      = ApiService.backendCall fetch
          (ApiService.API_BASE_URL ++ "/models/gemini/analyze") d := by
  unfold ModelServiceLib.analyzeWithModel ModelServiceLib.USE_SECURE_BACKEND
  rw [if_pos rfl]
  unfold ApiService.analyzeWithBackend
  rw [if_neg (by simp [h])]

/-- C2 witness: the amended statement at the concrete out-of-set
identifier `"anthropic-claude"`. -/
theorem C2_witness :
    ModelServiceLib.analyzeWithModel (fun _ _ => ⟨true, 200, none, "report"⟩)
        (fun _ _ => Except.error "x") (fun _ _ => Except.error "y")
        "anthropic-claude" ⟨"J. Doe", "42", none, []⟩ ""
      = ApiService.backendCall (fun _ _ => ⟨true, 200, none, "report"⟩)
          (ApiService.API_BASE_URL ++ "/models/gemini/analyze")
          ⟨"J. Doe", "42", none, []⟩ :=
  C2_unknown_provider_defaults_to_gemini "anthropic-claude" (by decide)
    (fun _ _ => ⟨true, 200, none, "report"⟩)
    (fun _ _ => Except.error "x") (fun _ _ => Except.error "y")
    ⟨"J. Doe", "42", none, []⟩ ""

/-- C6 counterexample: a Gemini provider call that completes with zero
candidates — `response.text()` is the empty string — does NOT fail: the
adapter returns a successful fallback report. The Gemini adapter has no
empty-response error path (`return response.text() || "No analysis
could be generated."`). -/
theorem C6_counterexample :
    ModelService.analyzeWithGemini (some "gemini-key") (fun _ _ => Except.ok ⟨""⟩)
        ⟨"J. Doe", "42", none, [⟨"x.png", "image/png", 100, "AAAA"⟩]⟩
      = .ok "No analysis could be generated." := by
  rfl

/-- C6 amended: the OpenAI adapter turns a zero-choice completion into
the error `No response received from OpenAI.` — an error value, never
equal to any success, so callers can distinguish the two outcomes —
while the Gemini adapter turns an empty `response.text()` (zero
candidates) into a successful fallback report rather than an error. -/
theorem C6_zero_choices_behaviour (key : String) (d : MedicalAnalysisData)
    (netO : String → OpenAIRequest → Except String OpenAIResponse)
    (netG : String → GeminiRequest → Except String GeminiResponse)
    (hsize : ModelService.totalFileSize d ≤ MAX_TOTAL_FILE_SIZE)
    (hO : netO key (ModelService.mkOpenAIRequest d) = .ok ⟨[]⟩)
    (hG : netG key (ModelService.mkGeminiRequest d) = .ok ⟨""⟩) :
    ModelService.analyzeWithOpenAI (some key) netO d = .error .noResponseOpenAI ∧
    ModelService.analyzeWithGemini (some key) netG d
      = .ok "No analysis could be generated." ∧
    ∀ s : String,
      (Except.error ServerError.noResponseOpenAI : Except ServerError String) ≠ .ok s := by
  have hgt : ¬ ModelService.totalFileSize d > MAX_TOTAL_FILE_SIZE := by omega
  refine ⟨?_, ?_, fun s => by simp⟩
  · simp only [ModelService.analyzeWithOpenAI, if_neg hgt, hO]
  · simp only [ModelService.analyzeWithGemini, if_neg hgt, hG, jsOrElseStr]
    rfl

/-- C6 witness: the amended statement at a concrete request and
concrete zero-choice oracles. -/
theorem C6_witness :
    ModelService.analyzeWithOpenAI (some "sk-test") (fun _ _ => Except.ok ⟨[]⟩)
        ⟨"J. Doe", "42", none, [⟨"x.png", "image/png", 100, "AAAA"⟩]⟩
      = .error .noResponseOpenAI :=
  (C6_zero_choices_behaviour "sk-test"
    ⟨"J. Doe", "42", none, [⟨"x.png", "image/png", 100, "AAAA"⟩]⟩
    (fun _ _ => Except.ok ⟨[]⟩) (fun _ _ => Except.ok ⟨""⟩)
    (by decide) rfl rfl).1

/-- C7 counterexample: a request whose files total 21 MB, on a server
with the key configured, is answered with HTTP status 500 — the
generic catch-all — not with a 413-class status, even though the
failure is the size-guard violation (`PayloadTooLarge`), as the second
conjunct shows. -/
theorem C7_counterexample :
    (ModelRoutes.postOpenAIAnalyze (some "sk-test") (fun _ _ => Except.error "unreachable")
        ⟨some "J. Doe", some "42", none,
          some [⟨"big.png", "image/png", 22020096, ""⟩]⟩).status = 500 ∧
    ModelService.analyzeWithOpenAI (some "sk-test") (fun _ _ => Except.error "unreachable")
        (ModelRoutes.toAnalysisData
          ⟨some "J. Doe", some "42", none,
            some [⟨"big.png", "image/png", 22020096, ""⟩]⟩)
      = .error (.payloadTooLarge 22020096) := by
  exact ⟨rfl, rfl⟩

/-- C7 amended: the routes know only three statuses — 400 exactly when
the validation middleware rejects the shape, 200 on service success,
and 500 for EVERY thrown service error (missing credential, payload too
large, empty response and provider failure alike, with the thrown
message as the body); no 413- or 401/403-class status is ever
produced. -/
theorem C7_status_classes (kO kG : Option String)
    (netO : String → OpenAIRequest → Except String OpenAIResponse)
    (netG : String → GeminiRequest → Except String GeminiResponse)
    (r : RawRequest) :
    (ModelRoutes.validateRequest r = false →
       ModelRoutes.postOpenAIAnalyze kO netO r
           = ⟨400, .error ModelRoutes.VALIDATION_ERROR_MSG⟩ ∧
       ModelRoutes.postGeminiAnalyze kG netG r
           = ⟨400, .error ModelRoutes.VALIDATION_ERROR_MSG⟩) ∧
    (∀ e, ModelRoutes.validateRequest r = true →
       ModelService.analyzeWithOpenAI kO netO (ModelRoutes.toAnalysisData r) = .error e →
       ModelRoutes.postOpenAIAnalyze kO netO r = ⟨500, .error (renderServerError e)⟩) ∧
    (∀ e, ModelRoutes.validateRequest r = true →
       ModelService.analyzeWithGemini kG netG (ModelRoutes.toAnalysisData r) = .error e →
       ModelRoutes.postGeminiAnalyze kG netG r = ⟨500, .error (renderServerError e)⟩) ∧
    ((ModelRoutes.postOpenAIAnalyze kO netO r).status = 200 ∨
     (ModelRoutes.postOpenAIAnalyze kO netO r).status = 400 ∨
     (ModelRoutes.postOpenAIAnalyze kO netO r).status = 500) ∧
    ((ModelRoutes.postGeminiAnalyze kG netG r).status = 200 ∨
     (ModelRoutes.postGeminiAnalyze kG netG r).status = 400 ∨
     (ModelRoutes.postGeminiAnalyze kG netG r).status = 500) := by
  refine ⟨?_, ?_, ?_, ?_, ?_⟩
  · intro hv
    unfold ModelRoutes.postOpenAIAnalyze ModelRoutes.postGeminiAnalyze
    rw [hv]
    exact ⟨rfl, rfl⟩
  · intro e hv he
    unfold ModelRoutes.postOpenAIAnalyze
    rw [hv, he]
    simp
  · intro e hv he
    unfold ModelRoutes.postGeminiAnalyze
    rw [hv, he]
    simp
  · unfold ModelRoutes.postOpenAIAnalyze
    rcases hv : ModelRoutes.validateRequest r with _ | _
    · simp
    · rcases ModelService.analyzeWithOpenAI kO netO (ModelRoutes.toAnalysisData r) with e | s
      · simp
      · simp
  · unfold ModelRoutes.postGeminiAnalyze
    rcases hv : ModelRoutes.validateRequest r with _ | _
    · simp
    · rcases ModelService.analyzeWithGemini kG netG (ModelRoutes.toAnalysisData r) with e | s
      · simp
      · simp

/-- C7 witness: the amended statement at a concrete invalid request
(missing files vector, answered 400) and the 500 branch at a concrete
failing service call. -/
theorem C7_witness :
    ModelRoutes.postOpenAIAnalyze (some "sk-test") (fun _ _ => Except.error "boom")
        ⟨some "J. Doe", some "42", none, none⟩
      = ⟨400, .error ModelRoutes.VALIDATION_ERROR_MSG⟩ ∧
    ModelRoutes.postOpenAIAnalyze (some "sk-test") (fun _ _ => Except.error "boom")
        ⟨some "J. Doe", some "42", none, some [⟨"x.png", "image/png", 100, "AAAA"⟩]⟩
      = ⟨500, .error "boom"⟩ :=
  ⟨(C7_status_classes (some "sk-test") none (fun _ _ => Except.error "boom")
      (fun _ _ => Except.error "g") ⟨some "J. Doe", some "42", none, none⟩).1 rfl |>.1,
   ((C7_status_classes (some "sk-test") none (fun _ _ => Except.error "boom")
      (fun _ _ => Except.error "g")
      ⟨some "J. Doe", some "42", none, some [⟨"x.png", "image/png", 100, "AAAA"⟩]⟩).2.1
      (.providerFailure "boom") rfl rfl)⟩

/-- C9 counterexample: a request carrying SIX files passes the server
validation middleware and is analyzed successfully (status 200) — the
server never enforces the upper bound of five files. -/
theorem C9_counterexample :
    ModelRoutes.postOpenAIAnalyze (some "sk-test")
        (fun _ _ => Except.ok ⟨[⟨some "report"⟩]⟩)
        ⟨some "J. Doe", some "42", none,
          some [⟨"1.png", "image/png", 1, "AA=="⟩, ⟨"2.png", "image/png", 1, "AA=="⟩,
                ⟨"3.png", "image/png", 1, "AA=="⟩, ⟨"4.png", "image/png", 1, "AA=="⟩,
                ⟨"5.png", "image/png", 1, "AA=="⟩, ⟨"6.png", "image/png", 1, "AA=="⟩]⟩
      = ⟨200, .ok "report"⟩ ∧
    (List.length [(⟨"1.png", "image/png", 1, "AA=="⟩ : MedicalFile),
        ⟨"2.png", "image/png", 1, "AA=="⟩, ⟨"3.png", "image/png", 1, "AA=="⟩,
        ⟨"4.png", "image/png", 1, "AA=="⟩, ⟨"5.png", "image/png", 1, "AA=="⟩,
        ⟨"6.png", "image/png", 1, "AA=="⟩]) = 6 := by
  exact ⟨rfl, rfl⟩

/-- C9 amended: the lower bound is enforced at the Secure Boundary — a
request with an absent or empty files array is rejected with the 400
validation error before any service work — while the upper bound of
five is enforced only client-side: `handleFileUpload` truncates any
upload selection to at most five files; the server itself accepts any
nonempty files array, with no upper bound. -/
theorem C9_file_count_bounds (kO : Option String)
    (netO : String → OpenAIRequest → Except String OpenAIResponse)
    (r : RawRequest) (h : r.files = some [] ∨ r.files = none) :
    ModelRoutes.postOpenAIAnalyze kO netO r
        = ⟨400, .error ModelRoutes.VALIDATION_ERROR_MSG⟩ ∧
    ∀ files acceptedFiles : List JSFile,
      (handleFileUpload files acceptedFiles).length ≤ 5 := by
  constructor
  · have hv : ModelRoutes.validateRequest r = false := by
      unfold ModelRoutes.validateRequest
      rcases h with h | h <;> rw [h] <;> simp
    unfold ModelRoutes.postOpenAIAnalyze
    rw [hv]
    rfl
  · intro files acceptedFiles
    unfold handleFileUpload
    rw [List.length_take]
    omega

/-- C9 witness: the amended statement at a concrete zero-file request
and a concrete seven-file upload selection. -/
theorem C9_witness :
    ModelRoutes.postOpenAIAnalyze (some "sk-test") (fun _ _ => Except.ok ⟨[]⟩)
        ⟨some "J. Doe", some "42", none, some []⟩
      = ⟨400, .error ModelRoutes.VALIDATION_ERROR_MSG⟩ ∧
    (handleFileUpload
        [⟨"1", "t", []⟩, ⟨"2", "t", []⟩, ⟨"3", "t", []⟩, ⟨"4", "t", []⟩]
        [⟨"5", "t", []⟩, ⟨"6", "t", []⟩, ⟨"7", "t", []⟩]).length ≤ 5 :=
  ⟨(C9_file_count_bounds (some "sk-test") (fun _ _ => Except.ok ⟨[]⟩)
      ⟨some "J. Doe", some "42", none, some []⟩ (Or.inl rfl)).1,
   (C9_file_count_bounds (some "sk-test") (fun _ _ => Except.ok ⟨[]⟩)
      ⟨some "J. Doe", some "42", none, some []⟩ (Or.inl rfl)).2
     [⟨"1", "t", []⟩, ⟨"2", "t", []⟩, ⟨"3", "t", []⟩, ⟨"4", "t", []⟩]
     [⟨"5", "t", []⟩, ⟨"6", "t", []⟩, ⟨"7", "t", []⟩]⟩

/-- C8 counterexample: a file of exactly 5 MB (`byteSize =
FILE_SIZE_WARNING_THRESHOLD`) is NOT read in 1 MB chunks: the encoder
performs one single whole-file read pass, because the source gate is
the strict comparison `file.size > FILE_SIZE_WARNING_THRESHOLD`. -/
theorem C8_counterexample :
    (⟨"scan.png", "image/png", List.replicate (5 * 1024 * 1024) 0⟩ : JSFile).size
      = FILE_SIZE_WARNING_THRESHOLD ∧
    readPasses ⟨"scan.png", "image/png", List.replicate (5 * 1024 * 1024) 0⟩
      = [List.replicate (5 * 1024 * 1024) 0] ∧
    (readPasses ⟨"scan.png", "image/png", List.replicate (5 * 1024 * 1024) 0⟩).length
      = 1 := by
  have hlen : (⟨"scan.png", "image/png",
      List.replicate (5 * 1024 * 1024) 0⟩ : JSFile).size = FILE_SIZE_WARNING_THRESHOLD := by
    simp only [JSFile.size, List.length_replicate, FILE_SIZE_WARNING_THRESHOLD]
  have hpass : readPasses ⟨"scan.png", "image/png", List.replicate (5 * 1024 * 1024) 0⟩
      = [List.replicate (5 * 1024 * 1024) 0] := by
    unfold readPasses
    rw [if_neg (by rw [hlen]; omega)]
  exact ⟨hlen, hpass, by rw [hpass]; rfl⟩

/-- C8 amended: a file at or below the 5 MB threshold is encoded from
one single whole-content read; a file strictly above it is read as the
`readChunk` loop's chunk sequence, in which every chunk holds at most
1 MB and every chunk except the last exactly 1 MB, the concatenation of
the chunks is exactly the file content, and the base64 encoding is
applied once to that concatenation. -/
theorem C8_chunking_behaviour (file : JSFile) :
    (file.size ≤ FILE_SIZE_WARNING_THRESHOLD → readPasses file = [file.content]) ∧
    (file.size > FILE_SIZE_WARNING_THRESHOLD →
       readPasses file = readChunk file.content 0 ∧
       (readPasses file).flatten = file.content ∧
       (∀ c ∈ readPasses file, c.length ≤ CHUNK_SIZE) ∧
       (∀ c ∈ (readPasses file).dropLast, c.length = CHUNK_SIZE) ∧
       fileToBase64 file
         = String.mk (jsSplitSecond
             (readAsDataURL file.type (readPasses file).flatten))) := by
  constructor
  · intro h
    unfold readPasses
    rw [if_neg (by omega)]
  · intro h
    have hpass : readPasses file = readChunk file.content 0 := by
      unfold readPasses
      rw [if_pos h]
    refine ⟨hpass, ?_, ?_, ?_, ?_⟩
    · rw [hpass, readChunk_flatten, List.drop_zero]
    · rw [hpass]
      exact (readChunk_sizes file.content 0).1
    · rw [hpass]
      exact (readChunk_sizes file.content 0).2
    · unfold fileToBase64
      rw [if_pos h, hpass]

/-- C8 witness: the amended statement applied to a 3-byte file (single
pass) and to a file one byte above the 5 MB threshold (chunked; its
chunk concatenation restores the content). -/
theorem C8_witness :
    readPasses ⟨"small.png", "image/png", [1, 2, 3]⟩ = [[1, 2, 3]] ∧
    (readPasses ⟨"big.png", "image/png",
        List.replicate (5 * 1024 * 1024 + 1) 7⟩).flatten
      = List.replicate (5 * 1024 * 1024 + 1) 7 := by
  have hsmall : (⟨"small.png", "image/png", [1, 2, 3]⟩ : JSFile).size
      ≤ FILE_SIZE_WARNING_THRESHOLD := by
    simp only [JSFile.size, List.length_cons, List.length_nil, FILE_SIZE_WARNING_THRESHOLD]
    omega
  have hbig : (⟨"big.png", "image/png",
      List.replicate (5 * 1024 * 1024 + 1) 7⟩ : JSFile).size
      > FILE_SIZE_WARNING_THRESHOLD := by
    simp only [JSFile.size, List.length_replicate, FILE_SIZE_WARNING_THRESHOLD]
    omega
  exact ⟨(C8_chunking_behaviour ⟨"small.png", "image/png", [1, 2, 3]⟩).1 hsmall,
    ((C8_chunking_behaviour ⟨"big.png", "image/png",
        List.replicate (5 * 1024 * 1024 + 1) 7⟩).2 hbig).2.1⟩

/-- C4: the round-trip law of the encoder. For every file — below the
5 MB threshold (single pass) or at/above it (single pass at exactly the
threshold, chunked above it) — the base64 payload produced by the
chunked `fileToBase64` decodes byte-for-byte to the original file
content; the same holds for the single-pass `fileToBase64` of
`api-service.ts`. The MIME type must not contain a comma, or the
`split(",")[1]` extraction of the data-URL payload would cut into the
MIME type instead. -/
theorem C4_fileToBase64_roundtrip (file : JSFile)
    (hbytes : ∀ b ∈ file.content, b < 256) (hmime : ',' ∉ file.type.data) :
    base64Decode (fileToBase64 file).data = some file.content ∧
    base64Decode (ApiService.fileToBase64 file).data = some file.content := by
  have hsingle : base64Decode
      (String.mk (jsSplitSecond (readAsDataURL file.type file.content))).data
      = some file.content := by
    show base64Decode (jsSplitSecond (readAsDataURL file.type file.content))
      = some file.content
    rw [jsSplitSecond_readAsDataURL _ _ hmime, base64_roundtrip _ hbytes]
  constructor
  · unfold fileToBase64
    split
    · rw [readChunk_flatten, List.drop_zero]
      exact hsingle
    · exact hsingle
  · exact hsingle

/-- C4 witness: the round-trip law at a concrete 2-byte PNG file. -/
theorem C4_witness :
    base64Decode (fileToBase64 ⟨"hi.png", "image/png", [72, 105]⟩).data
      = some [72, 105] :=
  (C4_fileToBase64_roundtrip ⟨"hi.png", "image/png", [72, 105]⟩
    (by decide) (by decide)).1

/-! ## Credential non-echo: characters of service-built messages -/

theorem data_mk (l : List Char) : (String.mk l).data = l := rfl

/-- Every character the server-side code can place into an error
message it builds itself (as opposed to passing a provider SDK message
through verbatim): the fixed texts of the validation, empty-response
and size-guard messages, plus decimal digits and the dot of the
rendered megabyte count. The configured API key is never interpolated
into any of them. -/
def SERVICE_MSG_CHARS : List Char :=
  (ModelRoutes.VALIDATION_ERROR_MSG ++ "No response received from OpenAI."
    ++ "Total file size (" ++ "MB) exceeds the maximum allowed (20MB)."
    ++ "0123456789.").data

theorem fixed2MB_chars (n : Nat) : ∀ c ∈ (fixed2MB n).data, c ∈ SERVICE_MSG_CHARS := by
  intro c hc
  simp only [fixed2MB, data_mk] at hc
  have hdig : ∀ x ∈ "0123456789".data, x ∈ SERVICE_MSG_CHARS := by decide
  have hdot : '.' ∈ SERVICE_MSG_CHARS := by decide
  rcases List.mem_append.mp hc with h | h
  · exact hdig _ (natToDigits_mem _ _ h)
  · rcases List.mem_cons.mp h with h | h
    · exact h ▸ hdot
    · rcases List.mem_append.mp h with h | h
      · exact hdig _ (natToDigits_mem _ _ h)
      · exact hdig _ (natToDigits_mem _ _ h)

theorem payload_msg_chars (n : Nat) :
    ∀ c ∈ (renderServerError (ServerError.payloadTooLarge n)).data,
      c ∈ SERVICE_MSG_CHARS := by
  intro c hc
  simp only [renderServerError, String.data_append] at hc
  have hpre : ∀ x ∈ "Total file size (".data, x ∈ SERVICE_MSG_CHARS := by decide
  have hpost : ∀ x ∈ "MB) exceeds the maximum allowed (20MB).".data,
      x ∈ SERVICE_MSG_CHARS := by decide
  rcases List.mem_append.mp hc with h | h
  · rcases List.mem_append.mp h with h | h
    · exact hpre _ h
    · exact fixed2MB_chars n c h
  · exact hpost _ h

/-- A key holding at least one character outside the service message
alphabet cannot occur inside a message drawn from that alphabet. -/
theorem key_not_infix (k m : String)
    (hch : ∃ ch, ch ∈ k.data ∧ ch ∉ SERVICE_MSG_CHARS)
    (hm : ∀ c ∈ m.data, c ∈ SERVICE_MSG_CHARS) :
    ¬ k.data <:+: m.data := by
  rintro hinf
  obtain ⟨ch, hin, hout⟩ := hch
  exact hout (hm ch (hinf.sublist.subset hin))

/-- Inversion: the only errors `analyzeWithOpenAI` can produce with the
key configured are the size-guard error, the empty-response error, and
the verbatim passthrough of a network-oracle error. -/
theorem analyzeWithOpenAI_error_cases (k : String)
    (net : String → OpenAIRequest → Except String OpenAIResponse)
    (d : MedicalAnalysisData) (e : ServerError)
    (h : ModelService.analyzeWithOpenAI (some k) net d = .error e) :
    e = .payloadTooLarge (ModelService.totalFileSize d) ∨
    e = .noResponseOpenAI ∨
    ∃ m, net k (ModelService.mkOpenAIRequest d) = .error m ∧ e = .providerFailure m := by
  simp only [ModelService.analyzeWithOpenAI] at h
  by_cases hgt : ModelService.totalFileSize d > MAX_TOTAL_FILE_SIZE
  · rw [if_pos hgt] at h
    injection h with h
    exact Or.inl h.symm
  · rw [if_neg hgt] at h
    rcases hnet : net k (ModelService.mkOpenAIRequest d) with m | resp
    · rw [hnet] at h
      injection h with h
      exact Or.inr (Or.inr ⟨m, rfl, h.symm⟩)
    · rw [hnet] at h
      rcases resp with ⟨choices⟩
      rcases choices with _ | ⟨choice, tl⟩
      · injection h with h
        exact Or.inr (Or.inl h.symm)
      · exact absurd h (by simp)

/-- Inversion for `analyzeWithGemini` with the key configured. -/
theorem analyzeWithGemini_error_cases (k : String)
    (net : String → GeminiRequest → Except String GeminiResponse)
    (d : MedicalAnalysisData) (e : ServerError)
    (h : ModelService.analyzeWithGemini (some k) net d = .error e) :
    e = .payloadTooLarge (ModelService.totalFileSize d) ∨
    ∃ m, net k (ModelService.mkGeminiRequest d) = .error m ∧ e = .providerFailure m := by
  simp only [ModelService.analyzeWithGemini] at h
  by_cases hgt : ModelService.totalFileSize d > MAX_TOTAL_FILE_SIZE
  · rw [if_pos hgt] at h
    injection h with h
    exact Or.inl h.symm
  · rw [if_neg hgt] at h
    rcases hnet : net k (ModelService.mkGeminiRequest d) with m | resp
    · rw [hnet] at h
      injection h with h
      exact Or.inr ⟨m, rfl, h.symm⟩
    · rw [hnet] at h
      exact absurd h (by simp)

/-- C3: for every failure response either route returns to the caller,
the error body never contains the configured credential as a substring,
provided (i) the key holds at least one character outside the fixed
service-message alphabet (true of real `sk-…` / Google keys, which
contain `-` or other symbols) and (ii) the provider SDK error messages
passed through verbatim do not themselves embed the key. The service
code interpolates no credential into any message it builds. -/
theorem C3_no_credential_echo (kO kG : String)
    (netO : String → OpenAIRequest → Except String OpenAIResponse)
    (netG : String → GeminiRequest → Except String GeminiResponse)
    (r : RawRequest)
    (hkO : ∃ ch, ch ∈ kO.data ∧ ch ∉ SERVICE_MSG_CHARS)
    (hkG : ∃ ch, ch ∈ kG.data ∧ ch ∉ SERVICE_MSG_CHARS)
    (hnetO : ∀ req m, netO kO req = .error m → ¬ kO.data <:+: m.data)
    (hnetG : ∀ req m, netG kG req = .error m → ¬ kG.data <:+: m.data) :
    (∀ e, (ModelRoutes.postOpenAIAnalyze (some kO) netO r).body = .error e →
        ¬ kO.data <:+: e.data) ∧
    (∀ e, (ModelRoutes.postGeminiAnalyze (some kG) netG r).body = .error e →
        ¬ kG.data <:+: e.data) := by
  have hvalid : ∀ c ∈ ModelRoutes.VALIDATION_ERROR_MSG.data, c ∈ SERVICE_MSG_CHARS := by
    decide
  have hnoresp : ∀ c ∈ ("No response received from OpenAI." : String).data,
      c ∈ SERVICE_MSG_CHARS := by decide
  constructor
  · intro e he
    unfold ModelRoutes.postOpenAIAnalyze at he
    rcases hv : ModelRoutes.validateRequest r with _ | _
    · rw [hv] at he
      simp only [Bool.not_false, if_pos rfl] at he
      injection he with he
      exact he ▸ key_not_infix _ _ hkO hvalid
    · rw [hv] at he
      simp only [Bool.not_true, Bool.false_eq_true, if_false] at he
      rcases ha : ModelService.analyzeWithOpenAI (some kO) netO
          (ModelRoutes.toAnalysisData r) with srvE | s
      · rw [ha] at he
        injection he with he
        subst he
        rcases analyzeWithOpenAI_error_cases kO netO _ _ ha with h | h | ⟨m, hm, hpe⟩
        · exact h ▸ key_not_infix _ _ hkO (payload_msg_chars _)
        · exact h ▸ key_not_infix _ _ hkO hnoresp
        · exact hpe ▸ hnetO _ m hm
      · rw [ha] at he
        exact absurd he (by simp)
  · intro e he
    unfold ModelRoutes.postGeminiAnalyze at he
    rcases hv : ModelRoutes.validateRequest r with _ | _
    · rw [hv] at he
      simp only [Bool.not_false, if_pos rfl] at he
      injection he with he
      exact he ▸ key_not_infix _ _ hkG hvalid
    · rw [hv] at he
      simp only [Bool.not_true, Bool.false_eq_true, if_false] at he
      rcases ha : ModelService.analyzeWithGemini (some kG) netG
          (ModelRoutes.toAnalysisData r) with srvE | s
      · rw [ha] at he
        injection he with he
        subst he
        rcases analyzeWithGemini_error_cases kG netG _ _ ha with h | ⟨m, hm, hpe⟩
        · exact h ▸ key_not_infix _ _ hkG (payload_msg_chars _)
        · exact hpe ▸ hnetG _ m hm
      · rw [ha] at he
        exact absurd he (by simp)

/-- C3 witness: a concrete run in which the OpenAI oracle raises a
credential-class error; the caller-visible error message is that
message and does not contain the configured key `sk-secret123`. -/
theorem C3_witness :
    (ModelRoutes.postOpenAIAnalyze (some "sk-secret123")
        (fun _ _ => Except.error "Incorrect API key provided")
        ⟨some "J. Doe", some "42", none,
          some [⟨"x.png", "image/png", 100, "AAAA"⟩]⟩).body
      = .error "Incorrect API key provided" ∧
    ¬ ("sk-secret123" : String).data <:+:
        ("Incorrect API key provided" : String).data := by
  refine ⟨rfl, ?_⟩
  exact (C3_no_credential_echo "sk-secret123" "AIza-W"
    (fun _ _ => Except.error "Incorrect API key provided")
    (fun _ _ => Except.error "Invalid Gemini key")
    ⟨some "J. Doe", some "42", none, some [⟨"x.png", "image/png", 100, "AAAA"⟩]⟩
    ⟨'-', by decide, by decide⟩ ⟨'-', by decide, by decide⟩
    (fun req m h => by injection h with h; subst h; decide)
    (fun req m h => by injection h with h; subst h; decide)).1
    "Incorrect API key provided" rfl
